import Mathlib

/-!
A shallow embedding of the si7006 hwmon driver (si7006.c together with its
header si7006.h) and proofs about its sampling/caching state machine, its
raw-code conversions and its read dispatch.

Modelling conventions:
* C `long` values (temperature, humidity, extrema) are `Int`; the computed
  measurement values lie in ranges far below 2^31 so the `(long)` narrowing
  cast in the source is the identity and is not modelled.
* The jiffies clock (`unsigned long`) is `Nat`; the kernel macro
  `time_after(a, b)` is wraparound-safe strict "a after b", modelled as
  `b < a` (exact as long as real time differences stay below 2^31 jiffies).
* An i2c measurement transaction (`i2c_master_send` of the command byte
  followed by `i2c_master_recv` of two bytes) is modelled by its outcome
  `Option (Nat × Nat)`: `none` when either call returns a negative error
  code (in which case the C code never writes `*val`), `some (b0, b1)` for
  the two received bytes.  On the driver's declared targets (Raspberry Pi /
  ARM, per the device-tree overlay and README) plain `char` is unsigned, so
  a received byte is a value in [0, 255].
* The kernel config constant `HZ` is host-defined; it is passed as an
  explicit `hz : Nat` argument.
* The mutex serialises each call; a single call is embedded as an atomic
  state transformer `state → value × state`.
-/

namespace Si7006

/-- From si7006.h: `#define SI7006_NUM_CH_TEMP 1` (single-channel device);
used as the channel bound by both the temperature and humidity read paths. -/
def SI7006_NUM_CH_TEMP : Int := 1

/-- From si7006.h: the fields of `struct si7006_private` that the read paths
use (the i2c client handle and the mutex are part of the execution model,
not of the data state). -/
structure Si7006Private where
  temperature_valid : Bool
  max_temperature : Int
  temperature : Int
  min_temperature : Int
  temperature_updated : Nat
  humidity_valid : Bool
  max_humidity : Int
  humidity : Int
  min_humidity : Int
  humidity_updated : Nat
deriving DecidableEq, Repr

/-- The attach-time state: `devm_kzalloc` zero-fills `struct si7006_private`,
so both `valid` flags start false and all numeric fields start 0. -/
def si7006_attach_state : Si7006Private :=
  { temperature_valid := false
    max_temperature := 0
    temperature := 0
    min_temperature := 0
    temperature_updated := 0
    humidity_valid := false
    max_humidity := 0
    humidity := 0
    min_humidity := 0
    humidity_updated := 0 }

/-- Kernel macro `time_after(a, b)`: true when time `a` is strictly after
time `b` (wraparound-free abstraction). -/
def time_after (a b : Nat) : Bool :=
  decide (b < a)

/-- From si7006.c line 62: `code = buf[1] + buf[0]*256` — the big-endian
combination of the two received bytes (unsigned `char` on the ARM targets,
so each byte is in [0, 255]). -/
def si7006_raw_code (b0 b1 : Nat) : Int :=
  (b1 : Int) + (b0 : Int) * 256

/-- From si7006.c line 63: `temp = ((long long)(code)*175720)/65536-46850`.
C `/` on `long long` truncates toward zero, i.e. `Int.tdiv`. -/
def si7006_temp_conv (code : Int) : Int :=
  (code * 175720).tdiv 65536 - 46850

/-- From si7006.c line 100: `temp = ((long long)(code)*125000)/65536-6000`. -/
def si7006_hum_conv (code : Int) : Int :=
  (code * 125000).tdiv 65536 - 6000

/-- si7006.c lines 41-67, `si7006_get_master_temperature`: send the
`SI7006_MEAS_TEMP_MASTER_MODE` command, receive two bytes, combine them
big-endian and convert.  On a send or receive error the function returns
the error without writing `*val`, modelled as `none`. -/
def si7006_get_master_temperature (transport : Option (Nat × Nat)) : Option Int :=
  match transport with
  | none => none
  | some (b0, b1) => some (si7006_temp_conv (si7006_raw_code b0 b1))

/-- si7006.c lines 77-104, `si7006_get_master_humidity`: same transaction
shape with the `SI7006_MEAS_REL_HUMIDITY_MASTER_MODE` command. -/
def si7006_get_master_humidity (transport : Option (Nat × Nat)) : Option Int :=
  match transport with
  | none => none
  | some (b0, b1) => some (si7006_hum_conv (si7006_raw_code b0 b1))

/-- The staleness guard of `si7006_get_temperature` (si7006.c lines 122-123):
`time_after(jiffies, data->temperature_updated + HZ) || !data->temperature_valid`.
The i2c transaction of the temperature read path is issued exactly when this
guard is true. -/
def si7006_temp_stale (hz : Nat) (jiffies : Nat) (data : Si7006Private) : Bool :=
  time_after jiffies (data.temperature_updated + hz) || !data.temperature_valid

/-- The staleness guard of `si7006_get_humidity` (si7006.c lines 196-197). -/
def si7006_hum_stale (hz : Nat) (jiffies : Nat) (data : Si7006Private) : Bool :=
  time_after jiffies (data.humidity_updated + hz) || !data.humidity_valid

/-- si7006.c lines 114-150, `si7006_get_temperature`: the local `temperature`
starts at 0; when the cache is stale the master transaction runs, and on its
failure `goto error` returns the still-0 local without touching the state;
on success the value, timestamp and extrema are updated (first valid sample
sets `min = max = value` and `valid = true`); when the cache is fresh the
cached value is returned unchanged. -/
def si7006_get_temperature (hz : Nat) (transport : Option (Nat × Nat))
    (jiffies : Nat) (data : Si7006Private) : Int × Si7006Private :=
  if si7006_temp_stale hz jiffies data then
    match si7006_get_master_temperature transport with
    | none => (0, data)
    | some temperature =>
      let d1 := { data with temperature := temperature, temperature_updated := jiffies }
      if data.temperature_valid then
        let d2 := if temperature > data.max_temperature then
            { d1 with max_temperature := temperature } else d1
        let d3 := if temperature < data.min_temperature then
            { d2 with min_temperature := temperature } else d2
        (temperature, d3)
      else
        (temperature, { d1 with min_temperature := temperature,
                                max_temperature := temperature,
                                temperature_valid := true })
  else
    (data.temperature, data)

/-- si7006.c lines 159-164, `si7006_get_temperature_max`: pure accessor. -/
def si7006_get_temperature_max (data : Si7006Private) : Int :=
  data.max_temperature

/-- si7006.c lines 173-178, `si7006_get_temperature_min`: pure accessor. -/
def si7006_get_temperature_min (data : Si7006Private) : Int :=
  data.min_temperature

/-- si7006.c lines 188-224, `si7006_get_humidity`: mirror of
`si7006_get_temperature` on the humidity fields. -/
def si7006_get_humidity (hz : Nat) (transport : Option (Nat × Nat))
    (jiffies : Nat) (data : Si7006Private) : Int × Si7006Private :=
  if si7006_hum_stale hz jiffies data then
    match si7006_get_master_humidity transport with
    | none => (0, data)
    | some humidity =>
      let d1 := { data with humidity := humidity, humidity_updated := jiffies }
      if data.humidity_valid then
        let d2 := if humidity > data.max_humidity then
            { d1 with max_humidity := humidity } else d1
        let d3 := if humidity < data.min_humidity then
            { d2 with min_humidity := humidity } else d2
        (humidity, d3)
      else
        (humidity, { d1 with min_humidity := humidity,
                             max_humidity := humidity,
                             humidity_valid := true })
  else
    (data.humidity, data)

/-- si7006.c lines 233-238, `si7006_get_humidity_max`: pure accessor. -/
def si7006_get_humidity_max (data : Si7006Private) : Int :=
  data.max_humidity

/-- si7006.c lines 247-252, `si7006_get_humidity_min`: pure accessor. -/
def si7006_get_humidity_min (data : Si7006Private) : Int :=
  data.min_humidity

/-- The hwmon sensor types (`enum hwmon_sensor_types` of the kernel hwmon
API); the driver handles `hwmon_temp` and `hwmon_humidity` and rejects the
rest through the default case. -/
inductive HwmonSensorType where
  | hwmon_chip
  | hwmon_temp
  | hwmon_in
  | hwmon_curr
  | hwmon_power
  | hwmon_energy
  | hwmon_humidity
  | hwmon_fan
  | hwmon_pwm
  | hwmon_intrusion
deriving DecidableEq, Repr

/-- The `u32 attr` argument, abstracted by its kind.  The hwmon framework
passes an attribute of the enum matching the queried sensor type, so for
`hwmon_temp` the constructors stand for `hwmon_temp_input` /
`hwmon_temp_max` / `hwmon_temp_min`, for `hwmon_humidity` for
`hwmon_humidity_input` / `hwmon_humidity_max` / `hwmon_humidity_min`;
`other` covers every attribute value falling into the switch defaults. -/
inductive HwmonAttr where
  | input
  | max
  | min
  | other (n : Nat)
deriving DecidableEq, Repr

/-- si7006.c lines 264-289, `si7006_read_temperature`: switch on the
attribute, check `channel < SI7006_NUM_CH_TEMP`, and dispatch to the
current/max/min accessor; every other case returns `-EOPNOTSUPP`
(modelled `none`) with `*val` unwritten and the state untouched. -/
def si7006_read_temperature (hz : Nat) (transport : Option (Nat × Nat))
    (jiffies : Nat) (attr : HwmonAttr) (channel : Int) (data : Si7006Private) :
    Option Int × Si7006Private :=
  match attr with
  | .input =>
    if channel < SI7006_NUM_CH_TEMP then
      let r := si7006_get_temperature hz transport jiffies data
      (some r.1, r.2)
    else
      (none, data)
  | .max =>
    if channel < SI7006_NUM_CH_TEMP then
      (some (si7006_get_temperature_max data), data)
    else
      (none, data)
  | .min =>
    if channel < SI7006_NUM_CH_TEMP then
      (some (si7006_get_temperature_min data), data)
    else
      (none, data)
  | .other _ => (none, data)

/-- si7006.c lines 301-326, `si7006_read_humidity`: mirror of
`si7006_read_temperature` (the source reuses `SI7006_NUM_CH_TEMP` as the
channel bound here too). -/
def si7006_read_humidity (hz : Nat) (transport : Option (Nat × Nat))
    (jiffies : Nat) (attr : HwmonAttr) (channel : Int) (data : Si7006Private) :
    Option Int × Si7006Private :=
  match attr with
  | .input =>
    if channel < SI7006_NUM_CH_TEMP then
      let r := si7006_get_humidity hz transport jiffies data
      (some r.1, r.2)
    else
      (none, data)
  | .max =>
    if channel < SI7006_NUM_CH_TEMP then
      (some (si7006_get_humidity_max data), data)
    else
      (none, data)
  | .min =>
    if channel < SI7006_NUM_CH_TEMP then
      (some (si7006_get_humidity_min data), data)
    else
      (none, data)
  | .other _ => (none, data)

/-- si7006.c lines 339-350, `si7006_read`: switch on the sensor type and
delegate; any type other than `hwmon_temp` / `hwmon_humidity` returns
`-EOPNOTSUPP` (modelled `none`). -/
def si7006_read (hz : Nat) (transport : Option (Nat × Nat)) (jiffies : Nat)
    (type : HwmonSensorType) (attr : HwmonAttr) (channel : Int)
    (data : Si7006Private) : Option Int × Si7006Private :=
  match type with
  | .hwmon_temp => si7006_read_temperature hz transport jiffies attr channel data
  | .hwmon_humidity => si7006_read_humidity hz transport jiffies attr channel data
  | _ => (none, data)

/-- The spec's per-quantity invariant for the temperature record:
`min <= value <= max` whenever `valid == true`. -/
def temp_inv (d : Si7006Private) : Prop :=
  d.temperature_valid = true →
    d.min_temperature ≤ d.temperature ∧ d.temperature ≤ d.max_temperature

/-- The spec's per-quantity invariant for the humidity record. -/
def hum_inv (d : Si7006Private) : Prop :=
  d.humidity_valid = true →
    d.min_humidity ≤ d.humidity ∧ d.humidity ≤ d.max_humidity

/-- A concrete state with both quantities holding a valid sample taken at
jiffies time 0 (used as sample input in several concrete statements). -/
def sampleValid : Si7006Private :=
  { temperature_valid := true
    max_temperature := 13000
    temperature := 12345
    min_temperature := 12000
    temperature_updated := 0
    humidity_valid := true
    max_humidity := 61000
    humidity := 55500
    min_humidity := 50000
    humidity_updated := 0 }

/-- Claim C2, counterexample: the temperature conversion of raw code 0xFFFF
is 128867 milli-degrees, not 129735 as the claim states. -/
theorem c2_counterexample :
    si7006_temp_conv 65535 = 128867 ∧ (128867 : Int) ≠ 129735 := by
  decide

/-- Claim C2 (amended): for every 16-bit unsigned raw code, the temperature
conversion equals (code * 175720) / 65536 - 46850 in exact truncating integer
arithmetic, the intermediate product stays far below 2^63 (no overflow in the
`long long`), code 0x0000 yields -46850, and code 0xFFFF yields 128867 (not
129735) milli-degrees. -/
theorem c2_temp_conversion (code : Nat) (h : code ≤ 65535) :
    si7006_temp_conv (code : Int) = Int.ofNat ((code * 175720) / 65536) - 46850
    ∧ (code : Int) * 175720 < 2 ^ 63
    ∧ si7006_temp_conv 0 = -46850
    ∧ si7006_temp_conv 65535 = 128867 := by
  refine ⟨rfl, ?_, by decide, by decide⟩
  have h2 : (2 : Int) ^ 63 = 9223372036854775808 := by norm_num
  omega

/-- Witness for C2 at the concrete raw code 300. -/
theorem c2_witness :
    si7006_temp_conv ((300 : Nat) : Int)
        = Int.ofNat ((300 * 175720) / 65536) - 46850
    ∧ ((300 : Nat) : Int) * 175720 < 2 ^ 63
    ∧ si7006_temp_conv 0 = -46850
    ∧ si7006_temp_conv 65535 = 128867 :=
  c2_temp_conversion 300 (by decide)

/-- Claim C3, counterexample: the humidity conversion of raw code 0xFFFF is
118998 milli-percent, not 118968 as the claim states. -/
theorem c3_counterexample :
    si7006_hum_conv 65535 = 118998 ∧ (118998 : Int) ≠ 118968 := by
  decide

/-- Claim C3 (amended): for every 16-bit unsigned raw code, the humidity
conversion equals (code * 125000) / 65536 - 6000 in exact truncating integer
arithmetic, the intermediate product stays far below 2^63, code 0x0000 yields
-6000, and code 0xFFFF yields 118998 (not 118968) milli-percent. -/
theorem c3_hum_conversion (code : Nat) (h : code ≤ 65535) :
    si7006_hum_conv (code : Int) = Int.ofNat ((code * 125000) / 65536) - 6000
    ∧ (code : Int) * 125000 < 2 ^ 63
    ∧ si7006_hum_conv 0 = -6000
    ∧ si7006_hum_conv 65535 = 118998 := by
  refine ⟨rfl, ?_, by decide, by decide⟩
  have h2 : (2 : Int) ^ 63 = 9223372036854775808 := by norm_num
  omega

/-- Witness for C3 at the concrete raw code 40000. -/
theorem c3_witness :
    si7006_hum_conv ((40000 : Nat) : Int)
        = Int.ofNat ((40000 * 125000) / 65536) - 6000
    ∧ ((40000 : Nat) : Int) * 125000 < 2 ^ 63
    ∧ si7006_hum_conv 0 = -6000
    ∧ si7006_hum_conv 65535 = 118998 :=
  c3_hum_conversion 40000 (by decide)

/-- Claim C10: for received bytes b0, b1 in [0, 255] the raw code handed to
the conversion is the big-endian combination b0 * 256 + b1, always in
[0, 65535] (never negative), and both master transactions pass exactly this
code to their conversion. -/
theorem c10_raw_code_range (b0 b1 : Nat) (h0 : b0 < 256) (h1 : b1 < 256) :
    si7006_raw_code b0 b1 = (b0 : Int) * 256 + (b1 : Int)
    ∧ 0 ≤ si7006_raw_code b0 b1
    ∧ si7006_raw_code b0 b1 ≤ 65535
    ∧ si7006_get_master_temperature (some (b0, b1))
        = some (si7006_temp_conv (si7006_raw_code b0 b1))
    ∧ si7006_get_master_humidity (some (b0, b1))
        = some (si7006_hum_conv (si7006_raw_code b0 b1)) := by
  refine ⟨by unfold si7006_raw_code; ring, ?_, ?_, rfl, rfl⟩
  · unfold si7006_raw_code; omega
  · unfold si7006_raw_code; omega

/-- Witness for C10 at bytes (200, 129), both with the high bit set. -/
theorem c10_witness :
    si7006_raw_code 200 129 = ((200 : Nat) : Int) * 256 + ((129 : Nat) : Int)
    ∧ 0 ≤ si7006_raw_code 200 129
    ∧ si7006_raw_code 200 129 ≤ 65535
    ∧ si7006_get_master_temperature (some (200, 129))
        = some (si7006_temp_conv (si7006_raw_code 200 129))
    ∧ si7006_get_master_humidity (some (200, 129))
        = some (si7006_hum_conv (si7006_raw_code 200 129)) :=
  c10_raw_code_range 200 129 (by decide) (by decide)

/-- Claim C9: when no valid sample was ever taken (valid == false) and the
transport transaction fails, get_current returns 0 (the function-local
default) with no error surfaced, and the state is unchanged, so valid stays
false. -/
theorem c9_never_valid_failure (hz jiffies : Nat) (d : Si7006Private)
    (hT : d.temperature_valid = false) (hH : d.humidity_valid = false) :
    si7006_get_temperature hz none jiffies d = (0, d)
    ∧ si7006_get_humidity hz none jiffies d = (0, d) := by
  constructor
  · unfold si7006_get_temperature si7006_temp_stale
    simp [hT, si7006_get_master_temperature]
  · unfold si7006_get_humidity si7006_hum_stale
    simp [hH, si7006_get_master_humidity]

/-- Witness for C9 at the attach-time state. -/
theorem c9_witness :
    si7006_get_temperature 100 none 0 si7006_attach_state
        = (0, si7006_attach_state)
    ∧ si7006_get_humidity 100 none 0 si7006_attach_state
        = (0, si7006_attach_state) :=
  c9_never_valid_failure 100 0 si7006_attach_state rfl rfl

/-- Claim C1, counterexample: in a state with a valid cached temperature of
12345, a stale read whose transport fails returns 0, not the previous cached
value. -/
theorem c1_counterexample :
    si7006_temp_stale 100 1000 sampleValid = true
    ∧ sampleValid.temperature_valid = true
    ∧ (si7006_get_temperature 100 none 1000 sampleValid).1
        ≠ sampleValid.temperature := by
  decide

/-- Claim C1 (amended): with a previously taken valid sample, if get_current
finds the cache stale and the transport transaction fails, it returns 0 (the
function-local default, not the previous cached value), and the state is
unchanged: value, min, max, valid and last_updated are not modified, so the
next call retries the transport. -/
theorem c1_transport_failure (hz jiffies : Nat) (d : Si7006Private)
    (hTv : d.temperature_valid = true)
    (hTs : si7006_temp_stale hz jiffies d = true)
    (hHv : d.humidity_valid = true)
    (hHs : si7006_hum_stale hz jiffies d = true) :
    si7006_get_temperature hz none jiffies d = (0, d)
    ∧ si7006_get_humidity hz none jiffies d = (0, d) := by
  constructor
  · unfold si7006_get_temperature
    simp [hTs, si7006_get_master_temperature]
  · unfold si7006_get_humidity
    simp [hHs, si7006_get_master_humidity]

/-- Witness for C1 at a concrete stale valid state. -/
theorem c1_witness :
    si7006_get_temperature 100 none 1000 sampleValid = (0, sampleValid)
    ∧ si7006_get_humidity 100 none 1000 sampleValid = (0, sampleValid) :=
  c1_transport_failure 100 1000 sampleValid (by decide) (by decide)
    (by decide) (by decide)

/-- Claim C4, counterexample: at jiffies 100 with last_updated 0 and hz 100
the elapsed time equals the refresh interval, the sample is valid, yet the
guard is false and the call returns the cached value without a transport
transaction (the provided working transport is ignored). -/
theorem c4_counterexample :
    sampleValid.temperature_valid = true
    ∧ sampleValid.temperature_updated + 100 ≤ 100
    ∧ si7006_temp_stale 100 100 sampleValid = false
    ∧ si7006_get_temperature 100 (some (0, 0)) 100 sampleValid
        = (sampleValid.temperature, sampleValid) := by
  decide

/-- Claim C4 (amended): get_current issues a transport transaction exactly
when valid == false or now is strictly after last_updated + refresh_interval
(i.e. now - last_updated >= refresh_interval + 1, not >= refresh_interval);
when neither holds it returns the cached value directly without any transport
transaction and without modifying the state.  The last two conjuncts show the
transaction really happens under the guard: the returned value is the
converted transported code. -/
theorem c4_staleness_condition (hz jiffies : Nat) (t : Option (Nat × Nat))
    (d : Si7006Private) :
    (si7006_temp_stale hz jiffies d = true
      ↔ (d.temperature_valid = false ∨ d.temperature_updated + hz < jiffies))
    ∧ (si7006_temp_stale hz jiffies d = false →
        si7006_get_temperature hz t jiffies d = (d.temperature, d))
    ∧ (si7006_hum_stale hz jiffies d = true
      ↔ (d.humidity_valid = false ∨ d.humidity_updated + hz < jiffies))
    ∧ (si7006_hum_stale hz jiffies d = false →
        si7006_get_humidity hz t jiffies d = (d.humidity, d))
    ∧ (si7006_temp_stale hz jiffies d = true → ∀ b0 b1 : Nat,
        (si7006_get_temperature hz (some (b0, b1)) jiffies d).1
          = si7006_temp_conv (si7006_raw_code b0 b1))
    ∧ (si7006_hum_stale hz jiffies d = true → ∀ b0 b1 : Nat,
        (si7006_get_humidity hz (some (b0, b1)) jiffies d).1
          = si7006_hum_conv (si7006_raw_code b0 b1)) := by
  refine ⟨?_, ?_, ?_, ?_, ?_, ?_⟩
  · unfold si7006_temp_stale time_after
    cases hv : d.temperature_valid <;> simp [hv]
  · intro hs
    unfold si7006_get_temperature
    simp [hs]
  · unfold si7006_hum_stale time_after
    cases hv : d.humidity_valid <;> simp [hv]
  · intro hs
    unfold si7006_get_humidity
    simp [hs]
  · intro hs b0 b1
    unfold si7006_get_temperature
    simp only [hs, if_true, si7006_get_master_temperature]
    cases hv : d.temperature_valid <;> simp [hv]
  · intro hs b0 b1
    unfold si7006_get_humidity
    simp only [hs, if_true, si7006_get_master_humidity]
    cases hv : d.humidity_valid <;> simp [hv]

/-- Witness for C4: a fresh valid state at jiffies 50 returns the cached
values with the state untouched. -/
theorem c4_witness :
    si7006_get_temperature 100 none 50 sampleValid
        = (sampleValid.temperature, sampleValid)
    ∧ si7006_get_humidity 100 none 50 sampleValid
        = (sampleValid.humidity, sampleValid) :=
  ⟨(c4_staleness_condition 100 50 none sampleValid).2.1 (by decide),
   (c4_staleness_condition 100 50 none sampleValid).2.2.2.1 (by decide)⟩

/-- Helper: one temperature read call preserves the temperature invariant,
whatever the clock and the transport outcome. -/
theorem temp_inv_step (hz : Nat) (t : Option (Nat × Nat)) (jiffies : Nat)
    (d : Si7006Private) (h : temp_inv d) :
    temp_inv (si7006_get_temperature hz t jiffies d).2 := by
  unfold si7006_get_temperature
  cases hs : si7006_temp_stale hz jiffies d
  · simpa using h
  · simp only [if_true]
    cases t with
    | none => simpa [si7006_get_master_temperature] using h
    | some p =>
      obtain ⟨b0, b1⟩ := p
      simp only [si7006_get_master_temperature]
      cases hv : d.temperature_valid
      · simp [temp_inv]
      · simp only [if_true]
        unfold temp_inv
        intro _
        split_ifs with h1 h2 h2 <;> simp <;> omega

/-- Helper: one humidity read call preserves the humidity invariant. -/
theorem hum_inv_step (hz : Nat) (t : Option (Nat × Nat)) (jiffies : Nat)
    (d : Si7006Private) (h : hum_inv d) :
    hum_inv (si7006_get_humidity hz t jiffies d).2 := by
  unfold si7006_get_humidity
  cases hs : si7006_hum_stale hz jiffies d
  · simpa using h
  · simp only [if_true]
    cases t with
    | none => simpa [si7006_get_master_humidity] using h
    | some p =>
      obtain ⟨b0, b1⟩ := p
      simp only [si7006_get_master_humidity]
      cases hv : d.humidity_valid
      · simp [hum_inv]
      · simp only [if_true]
        unfold hum_inv
        intro _
        split_ifs with h1 h2 h2 <;> simp <;> omega

/-- Claim C6: the invariant min <= value <= max (whenever valid == true)
holds at the attach state and is preserved by every get_current call — on
the refresh path, the cached path and the transport-error path alike (the
transport outcome is universally quantified), hence at every reachable
state. -/
theorem c6_invariant (hz jiffies : Nat) (t : Option (Nat × Nat))
    (d : Si7006Private) (hT : temp_inv d) (hH : hum_inv d) :
    temp_inv (si7006_get_temperature hz t jiffies d).2
    ∧ hum_inv (si7006_get_humidity hz t jiffies d).2
    ∧ temp_inv si7006_attach_state
    ∧ hum_inv si7006_attach_state :=
  ⟨temp_inv_step hz t jiffies d hT, hum_inv_step hz t jiffies d hH,
   by intro h; simp [si7006_attach_state] at h,
   by intro h; simp [si7006_attach_state] at h⟩

/-- Witness for C6: the invariant survives a successful stale refresh of the
concrete valid state. -/
theorem c6_witness :
    temp_inv (si7006_get_temperature 100 (some (100, 7)) 1000 sampleValid).2
    ∧ hum_inv (si7006_get_humidity 100 (some (100, 7)) 1000 sampleValid).2
    ∧ temp_inv si7006_attach_state
    ∧ hum_inv si7006_attach_state :=
  c6_invariant 100 1000 (some (100, 7)) sampleValid
    (by unfold temp_inv; decide) (by unfold hum_inv; decide)

/-- Helper: once the temperature sample is valid, any temperature read call
leaves it valid. -/
theorem temp_valid_mono (hz : Nat) (t : Option (Nat × Nat)) (jiffies : Nat)
    (e : Si7006Private) (h : e.temperature_valid = true) :
    (si7006_get_temperature hz t jiffies e).2.temperature_valid = true := by
  unfold si7006_get_temperature
  cases hs : si7006_temp_stale hz jiffies e
  · simpa using h
  · simp only [if_true]
    cases t with
    | none => simpa [si7006_get_master_temperature] using h
    | some p =>
      obtain ⟨b0, b1⟩ := p
      simp only [si7006_get_master_temperature, h, if_true]
      split_ifs <;> simp [h]

/-- Helper: once the humidity sample is valid, any humidity read call leaves
it valid. -/
theorem hum_valid_mono (hz : Nat) (t : Option (Nat × Nat)) (jiffies : Nat)
    (e : Si7006Private) (h : e.humidity_valid = true) :
    (si7006_get_humidity hz t jiffies e).2.humidity_valid = true := by
  unfold si7006_get_humidity
  cases hs : si7006_hum_stale hz jiffies e
  · simpa using h
  · simp only [if_true]
    cases t with
    | none => simpa [si7006_get_master_humidity] using h
    | some p =>
      obtain ⟨b0, b1⟩ := p
      simp only [si7006_get_master_humidity, h, if_true]
      split_ifs <;> simp [h]

/-- Claim C7: from the attach-time situation (valid == false), a successful
transport sample sets min == max == value and flips valid to true; and valid
is monotone: no later get_current call — any clock, any transport outcome,
including failures — ever resets it to false (the accessors get_min/get_max
do not touch the state at all), so the false-to-true transition happens
exactly once. -/
theorem c7_first_sample (hz jiffies b0 b1 : Nat) (d : Si7006Private)
    (hT : d.temperature_valid = false) (hH : d.humidity_valid = false) :
    ((si7006_get_temperature hz (some (b0, b1)) jiffies d).2.temperature_valid = true
     ∧ (si7006_get_temperature hz (some (b0, b1)) jiffies d).2.min_temperature
         = (si7006_get_temperature hz (some (b0, b1)) jiffies d).1
     ∧ (si7006_get_temperature hz (some (b0, b1)) jiffies d).2.max_temperature
         = (si7006_get_temperature hz (some (b0, b1)) jiffies d).1
     ∧ (si7006_get_temperature hz (some (b0, b1)) jiffies d).2.temperature
         = (si7006_get_temperature hz (some (b0, b1)) jiffies d).1)
    ∧ ((si7006_get_humidity hz (some (b0, b1)) jiffies d).2.humidity_valid = true
     ∧ (si7006_get_humidity hz (some (b0, b1)) jiffies d).2.min_humidity
         = (si7006_get_humidity hz (some (b0, b1)) jiffies d).1
     ∧ (si7006_get_humidity hz (some (b0, b1)) jiffies d).2.max_humidity
         = (si7006_get_humidity hz (some (b0, b1)) jiffies d).1
     ∧ (si7006_get_humidity hz (some (b0, b1)) jiffies d).2.humidity
         = (si7006_get_humidity hz (some (b0, b1)) jiffies d).1)
    ∧ (∀ (hz2 j2 : Nat) (t2 : Option (Nat × Nat)) (e : Si7006Private),
        e.temperature_valid = true →
        (si7006_get_temperature hz2 t2 j2 e).2.temperature_valid = true)
    ∧ (∀ (hz2 j2 : Nat) (t2 : Option (Nat × Nat)) (e : Si7006Private),
        e.humidity_valid = true →
        (si7006_get_humidity hz2 t2 j2 e).2.humidity_valid = true) := by
  have hsT : si7006_temp_stale hz jiffies d = true := by
    unfold si7006_temp_stale; simp [hT]
  have hsH : si7006_hum_stale hz jiffies d = true := by
    unfold si7006_hum_stale; simp [hH]
  refine ⟨?_, ?_, fun hz2 j2 t2 e he => temp_valid_mono hz2 t2 j2 e he,
          fun hz2 j2 t2 e he => hum_valid_mono hz2 t2 j2 e he⟩
  · unfold si7006_get_temperature
    simp [hsT, si7006_get_master_temperature, hT]
  · unfold si7006_get_humidity
    simp [hsH, si7006_get_master_humidity, hH]

/-- Witness for C7: the first successful sample taken from the attach state. -/
theorem c7_witness :
    ((si7006_get_temperature 100 (some (1, 2)) 5 si7006_attach_state).2.temperature_valid = true
     ∧ (si7006_get_temperature 100 (some (1, 2)) 5 si7006_attach_state).2.min_temperature
         = (si7006_get_temperature 100 (some (1, 2)) 5 si7006_attach_state).1
     ∧ (si7006_get_temperature 100 (some (1, 2)) 5 si7006_attach_state).2.max_temperature
         = (si7006_get_temperature 100 (some (1, 2)) 5 si7006_attach_state).1
     ∧ (si7006_get_temperature 100 (some (1, 2)) 5 si7006_attach_state).2.temperature
         = (si7006_get_temperature 100 (some (1, 2)) 5 si7006_attach_state).1) :=
  (c7_first_sample 100 5 1 2 si7006_attach_state rfl rfl).1

/-- Helper: a fresh (non-stale) temperature read returns the cached value
and leaves the state unchanged, whatever the transport. -/
theorem get_temperature_fresh (hz : Nat) (t : Option (Nat × Nat)) (jiffies : Nat)
    (d : Si7006Private) (hs : si7006_temp_stale hz jiffies d = false) :
    si7006_get_temperature hz t jiffies d = (d.temperature, d) := by
  unfold si7006_get_temperature
  simp [hs]

/-- Helper: a fresh (non-stale) humidity read returns the cached value and
leaves the state unchanged. -/
theorem get_humidity_fresh (hz : Nat) (t : Option (Nat × Nat)) (jiffies : Nat)
    (d : Si7006Private) (hs : si7006_hum_stale hz jiffies d = false) :
    si7006_get_humidity hz t jiffies d = (d.humidity, d) := by
  unfold si7006_get_humidity
  simp [hs]

/-- Helper: field content of the state after a stale temperature read whose
transport succeeded, in the already-valid case. -/
theorem get_temperature_refresh (hz jiffies b0 b1 : Nat) (d : Si7006Private)
    (hv : d.temperature_valid = true)
    (hs : si7006_temp_stale hz jiffies d = true) :
    (si7006_get_temperature hz (some (b0, b1)) jiffies d).2.temperature
        = (si7006_get_temperature hz (some (b0, b1)) jiffies d).1
    ∧ (si7006_get_temperature hz (some (b0, b1)) jiffies d).2.temperature_updated
        = jiffies
    ∧ (si7006_get_temperature hz (some (b0, b1)) jiffies d).2.temperature_valid
        = true := by
  unfold si7006_get_temperature
  simp only [hs, if_true, si7006_get_master_temperature, hv]
  split_ifs <;> simp [hv]

/-- Helper: field content of the state after a stale humidity read whose
transport succeeded, in the already-valid case. -/
theorem get_humidity_refresh (hz jiffies b0 b1 : Nat) (d : Si7006Private)
    (hv : d.humidity_valid = true)
    (hs : si7006_hum_stale hz jiffies d = true) :
    (si7006_get_humidity hz (some (b0, b1)) jiffies d).2.humidity
        = (si7006_get_humidity hz (some (b0, b1)) jiffies d).1
    ∧ (si7006_get_humidity hz (some (b0, b1)) jiffies d).2.humidity_updated
        = jiffies
    ∧ (si7006_get_humidity hz (some (b0, b1)) jiffies d).2.humidity_valid
        = true := by
  unfold si7006_get_humidity
  simp only [hs, if_true, si7006_get_master_humidity, hv]
  split_ifs <;> simp [hv]

/-- Claim C8: from a valid state, when the first get_current call at now1 is
stale and its transport succeeds, any second call at a time now2 inside the
staleness window opened by the first call (not after now1 + refresh
interval) finds the cache fresh, returns the identical value, leaves the
state untouched, and the pair of calls issues exactly one transport
transaction (a call's transaction count is 1 exactly when its staleness
guard is true). -/
theorem c8_idempotence (hz now1 now2 b0 b1 : Nat) (t2 : Option (Nat × Nat))
    (d : Si7006Private)
    (hTv : d.temperature_valid = true)
    (hTs : si7006_temp_stale hz now1 d = true)
    (hHv : d.humidity_valid = true)
    (hHs : si7006_hum_stale hz now1 d = true)
    (hwin : time_after now2 (now1 + hz) = false) :
    (si7006_temp_stale hz now2 (si7006_get_temperature hz (some (b0, b1)) now1 d).2
        = false
     ∧ si7006_get_temperature hz t2 now2
          (si7006_get_temperature hz (some (b0, b1)) now1 d).2
        = ((si7006_get_temperature hz (some (b0, b1)) now1 d).1,
           (si7006_get_temperature hz (some (b0, b1)) now1 d).2)
     ∧ (if si7006_temp_stale hz now1 d then 1 else 0)
         + (if si7006_temp_stale hz now2
              (si7006_get_temperature hz (some (b0, b1)) now1 d).2 then 1 else 0)
         = 1)
    ∧ (si7006_hum_stale hz now2 (si7006_get_humidity hz (some (b0, b1)) now1 d).2
        = false
     ∧ si7006_get_humidity hz t2 now2
          (si7006_get_humidity hz (some (b0, b1)) now1 d).2
        = ((si7006_get_humidity hz (some (b0, b1)) now1 d).1,
           (si7006_get_humidity hz (some (b0, b1)) now1 d).2)
     ∧ (if si7006_hum_stale hz now1 d then 1 else 0)
         + (if si7006_hum_stale hz now2
              (si7006_get_humidity hz (some (b0, b1)) now1 d).2 then 1 else 0)
         = 1) := by
  obtain ⟨hTval, hTupd, hTvalid⟩ := get_temperature_refresh hz now1 b0 b1 d hTv hTs
  obtain ⟨hHval, hHupd, hHvalid⟩ := get_humidity_refresh hz now1 b0 b1 d hHv hHs
  have hsT2 : si7006_temp_stale hz now2
      (si7006_get_temperature hz (some (b0, b1)) now1 d).2 = false := by
    unfold si7006_temp_stale
    rw [hTupd, hTvalid, hwin]
    simp
  have hsH2 : si7006_hum_stale hz now2
      (si7006_get_humidity hz (some (b0, b1)) now1 d).2 = false := by
    unfold si7006_hum_stale
    rw [hHupd, hHvalid, hwin]
    simp
  refine ⟨⟨hsT2, ?_, ?_⟩, ⟨hsH2, ?_, ?_⟩⟩
  · rw [get_temperature_fresh hz t2 now2 _ hsT2, hTval]
  · rw [hTs, hsT2]; simp
  · rw [get_humidity_fresh hz t2 now2 _ hsH2, hHval]
  · rw [hHs, hsH2]; simp

/-- Witness for C8: a stale valid state refreshed at jiffies 1000 and read
again at jiffies 1100 (inside the new window). -/
theorem c8_witness :
    (si7006_temp_stale 100 1100 (si7006_get_temperature 100 (some (50, 60)) 1000 sampleValid).2
        = false
     ∧ si7006_get_temperature 100 none 1100
          (si7006_get_temperature 100 (some (50, 60)) 1000 sampleValid).2
        = ((si7006_get_temperature 100 (some (50, 60)) 1000 sampleValid).1,
           (si7006_get_temperature 100 (some (50, 60)) 1000 sampleValid).2)
     ∧ (if si7006_temp_stale 100 1000 sampleValid then 1 else 0)
         + (if si7006_temp_stale 100 1100
              (si7006_get_temperature 100 (some (50, 60)) 1000 sampleValid).2 then 1 else 0)
         = 1) :=
  (c8_idempotence 100 1000 1100 50 60 none sampleValid (by decide) (by decide)
    (by decide) (by decide) (by decide)).1

/-- Claim C5: a read query succeeds exactly when the sensor type is
temperature or humidity, the channel is < 1 and the attribute kind is
input, max or min; otherwise it reports unsupported.  On success, input is
dispatched to get_current (whose state update is threaded back), max to
get_max and min to get_min of the resolved quantity — the max/min paths
return the stored extremum with the state untouched and independent of the
transport. -/
theorem c5_read_dispatch (hz : Nat) (t : Option (Nat × Nat)) (jiffies : Nat)
    (type : HwmonSensorType) (attr : HwmonAttr) (channel : Int)
    (d : Si7006Private) :
    ((si7006_read hz t jiffies type attr channel d).1.isSome = true
      ↔ ((type = HwmonSensorType.hwmon_temp ∨ type = HwmonSensorType.hwmon_humidity)
          ∧ channel < 1
          ∧ (attr = HwmonAttr.input ∨ attr = HwmonAttr.max ∨ attr = HwmonAttr.min)))
    ∧ (si7006_read hz t jiffies HwmonSensorType.hwmon_temp HwmonAttr.input channel d
        = if channel < 1 then
            (some (si7006_get_temperature hz t jiffies d).1,
             (si7006_get_temperature hz t jiffies d).2)
          else (none, d))
    ∧ (si7006_read hz t jiffies HwmonSensorType.hwmon_temp HwmonAttr.max channel d
        = if channel < 1 then (some (si7006_get_temperature_max d), d) else (none, d))
    ∧ (si7006_read hz t jiffies HwmonSensorType.hwmon_temp HwmonAttr.min channel d
        = if channel < 1 then (some (si7006_get_temperature_min d), d) else (none, d))
    ∧ (si7006_read hz t jiffies HwmonSensorType.hwmon_humidity HwmonAttr.input channel d
        = if channel < 1 then
            (some (si7006_get_humidity hz t jiffies d).1,
             (si7006_get_humidity hz t jiffies d).2)
          else (none, d))
    ∧ (si7006_read hz t jiffies HwmonSensorType.hwmon_humidity HwmonAttr.max channel d
        = if channel < 1 then (some (si7006_get_humidity_max d), d) else (none, d))
    ∧ (si7006_read hz t jiffies HwmonSensorType.hwmon_humidity HwmonAttr.min channel d
        = if channel < 1 then (some (si7006_get_humidity_min d), d) else (none, d)) := by
  refine ⟨?_, ?_, ?_, ?_, ?_, ?_, ?_⟩
  · cases type <;> cases attr <;>
      simp [si7006_read, si7006_read_temperature, si7006_read_humidity,
            SI7006_NUM_CH_TEMP] <;>
      split_ifs <;> simp_all
  all_goals
    simp [si7006_read, si7006_read_temperature, si7006_read_humidity,
          SI7006_NUM_CH_TEMP]

/-- Witness for C5 at hwmon_temp / input / channel 0. -/
theorem c5_witness :
    si7006_read 100 none 1000 HwmonSensorType.hwmon_temp HwmonAttr.input 0 sampleValid
        = ((if (0 : Int) < 1 then
              (some (si7006_get_temperature 100 none 1000 sampleValid).1,
               (si7006_get_temperature 100 none 1000 sampleValid).2)
            else (none, sampleValid)) :
            Option Int × Si7006Private) :=
  (c5_read_dispatch 100 none 1000 HwmonSensorType.hwmon_temp HwmonAttr.input
    0 sampleValid).2.1

end Si7006
